import Mathlib

/-!
Shallow embedding of the capture & shortcut orchestration engine of
`src/app/main.ts` (an Electron main process), together with the
clipboard-based text-capture helpers of the copy-command utility module.
Pure state is made explicit: the in-memory binding table, the process's
entries in the system hotkey table, the clipboard, and the overlay window
are threaded through the embedded operations as values.
-/

/-- Logical shortcut actions: the three keys of `ShortcutConfig`
(`src/app/types.ts`). -/
inductive ShortcutKey
  | screenshotChat
  | screenshotExplain
  | textSelection
deriving DecidableEq

/-- Mirror of `ShortcutConfig` (`src/app/types.ts`): the current accelerator
of each of the three logical actions. -/
structure ShortcutConfig where
  screenshotChat : String
  screenshotExplain : String
  textSelection : String
deriving DecidableEq

/-- Field lookup of a `ShortcutConfig` by key (`currentShortcuts[key]`). -/
def ShortcutConfig.get (cfg : ShortcutConfig) : ShortcutKey → String
  | ShortcutKey.screenshotChat => cfg.screenshotChat
  | ShortcutKey.screenshotExplain => cfg.screenshotExplain
  | ShortcutKey.textSelection => cfg.textSelection

/-- Field assignment of a `ShortcutConfig` by key
(`currentShortcuts[key] = accelerator`). -/
def ShortcutConfig.set (cfg : ShortcutConfig) : ShortcutKey → String → ShortcutConfig
  | ShortcutKey.screenshotChat, a => { cfg with screenshotChat := a }
  | ShortcutKey.screenshotExplain, a => { cfg with screenshotExplain := a }
  | ShortcutKey.textSelection, a => { cfg with textSelection := a }

/-- The insertion order of the keys of `ShortcutConfig`, as iterated by
`Object.keys` / `Object.values` in the duplicate check of
`settings:update-shortcut` (`src/app/main.ts`, lines 329-334). -/
def ShortcutKey.all : List ShortcutKey :=
  [ShortcutKey.screenshotChat, ShortcutKey.screenshotExplain, ShortcutKey.textSelection]

/-- `DEFAULT_SHORTCUTS` (`src/app/main.ts`, lines 15-19). -/
def DEFAULT_SHORTCUTS : ShortcutConfig :=
  { screenshotChat := "CommandOrControl+Shift+X"
    screenshotExplain := "CommandOrControl+Shift+E"
    textSelection := "CommandOrControl+Shift+C" }

/-- `PROTECTED_SHORTCUTS` (`src/app/main.ts`, lines 22-41). -/
def PROTECTED_SHORTCUTS : List String :=
  [ "CommandOrControl+C"
  , "CommandOrControl+V"
  , "CommandOrControl+X"
  , "CommandOrControl+A"
  , "CommandOrControl+Z"
  , "CommandOrControl+Shift+Z"
  , "CommandOrControl+Y"
  , "CommandOrControl+S"
  , "CommandOrControl+W"
  , "CommandOrControl+Q"
  , "CommandOrControl+N"
  , "CommandOrControl+O"
  , "CommandOrControl+P"
  , "CommandOrControl+T"
  , "CommandOrControl+Tab"
  , "CommandOrControl+Space"
  , "CommandOrControl+Shift+Space"
  , "Escape" ]

/-- `isProtectedShortcut` (`src/app/main.ts`, lines 43-45). -/
def isProtectedShortcut (accelerator : String) : Bool :=
  PROTECTED_SHORTCUTS.contains accelerator

/-- `loadShortcuts` (`src/app/main.ts`, lines 52-64). The argument models the
outcome of reading and JSON-parsing the config file: `none` when the file is
missing or unparsable (the catch path), `some cfg` when it parses. The
validation accepts the parsed config when all three fields are truthy,
i.e. non-empty strings. -/
def loadShortcuts (fileContents : Option ShortcutConfig) : ShortcutConfig :=
  match fileContents with
  | some config =>
      if config.screenshotChat != "" && config.screenshotExplain != ""
          && config.textSelection != "" then
        config
      else
        DEFAULT_SHORTCUTS
  | none => DEFAULT_SHORTCUTS

/-- Modelled from the spec: the system's single global hotkey table (spec
section 1 and section 6) behind Electron's `globalShortcut`. The table is
represented as the list of accelerators this process currently holds,
together with a fixed predicate `ext` naming the accelerators owned by other
processes. A registration succeeds exactly when the accelerator is not
already present in the table, whichever process holds it; this matches
Chromium's `GlobalShortcutListener`, and is the behaviour `registerShortcut`
in `src/app/main.ts` works around by unregistering before re-registering. -/
def osRegister (ext : String → Bool) (regs : List String) (a : String) :
    List String × Bool :=
  if regs.contains a || ext a then (regs, false) else (a :: regs, true)

/-- Removal of an accelerator from the process's entries in the hotkey table
(`globalShortcut.unregister`). -/
def osUnregister (regs : List String) (a : String) : List String :=
  regs.filter (fun x => x != a)

/-- The mutable state of the main process that the shortcut registry touches:
the in-memory binding table `currentShortcuts`, the accelerators in the
`registeredShortcuts` map (kept in lock-step with the process's hotkey-table
entries), and the `shortcutsDisabled` flag (`src/app/main.ts`, lines 47-48
and 375). -/
structure MainState where
  currentShortcuts : ShortcutConfig
  registeredShortcuts : List String
  shortcutsDisabled : Bool
deriving DecidableEq

/-- `registerShortcut` (`src/app/main.ts`, lines 225-236): unregister the
accelerator if this process already holds it, then attempt the registration;
on success record it in the map. Returns the updated registration list and
the `ok` flag. -/
def registerShortcut (ext : String → Bool) (regs : List String) (a : String) :
    List String × Bool :=
  let regs1 := if regs.contains a then osUnregister regs a else regs
  osRegister ext regs1 a

/-- `registerAllShortcuts` (`src/app/main.ts`, lines 238-293): no-op while
shortcuts are disabled; otherwise tear down every held registration
(`unregisterAllShortcuts`) and register the three current accelerators in
order. Handler bodies are not part of the registry state. -/
def registerAllShortcuts (ext : String → Bool) (s : MainState) : MainState :=
  if s.shortcutsDisabled then s
  else
    let r1 := (registerShortcut ext [] s.currentShortcuts.screenshotChat).1
    let r2 := (registerShortcut ext r1 s.currentShortcuts.screenshotExplain).1
    let r3 := (registerShortcut ext r2 s.currentShortcuts.textSelection).1
    { s with registeredShortcuts := r3 }

/-- The duplicate check of `settings:update-shortcut` (`src/app/main.ts`,
lines 329-334): some *other* key currently maps to the candidate
accelerator. -/
def isDuplicate (cfg : ShortcutConfig) (key : ShortcutKey) (accelerator : String) : Bool :=
  ShortcutKey.all.any (fun k => k != key && cfg.get k == accelerator)

/-- Outcomes of `settings:update-shortcut` (`src/app/main.ts`, lines
322-362), one constructor per distinct returned value: success, and the four
error strings (protected, already in use, in use by another application,
failed to save). -/
inductive UpdateResult
  | ok
  | protectedErr
  | duplicate
  | osRejected
  | persistFailed
deriving DecidableEq

/-- The `settings:update-shortcut` IPC handler (`src/app/main.ts`, lines
322-362). `ext` is the fixed set of accelerators owned by other processes
and `persistFails` models whether `saveShortcuts` throws. The throwaway
availability test registers the accelerator and, when that succeeds,
immediately unregisters it; on success the new table is saved and all
bindings re-registered; a save failure rolls the in-memory binding back to
`oldAccelerator` before re-registering. -/
def updateBinding (ext : String → Bool) (persistFails : Bool) (s : MainState)
    (key : ShortcutKey) (accelerator : String) : MainState × UpdateResult :=
  if isProtectedShortcut accelerator then (s, UpdateResult.protectedErr)
  else if isDuplicate s.currentShortcuts key accelerator then (s, UpdateResult.duplicate)
  else
    let test := osRegister ext s.registeredShortcuts accelerator
    if test.2 = false then (s, UpdateResult.osRejected)
    else
      let regsAfterTest := osUnregister test.1 accelerator
      let oldAccelerator := s.currentShortcuts.get key
      let updated : MainState :=
        { currentShortcuts := s.currentShortcuts.set key accelerator
          registeredShortcuts := regsAfterTest
          shortcutsDisabled := s.shortcutsDisabled }
      if persistFails then
        (registerAllShortcuts ext
          { updated with currentShortcuts := updated.currentShortcuts.set key oldAccelerator },
         UpdateResult.persistFailed)
      else
        (registerAllShortcuts ext updated, UpdateResult.ok)

/-- The `settings:reset-shortcuts` IPC handler (`src/app/main.ts`, lines
364-373): set the table to the defaults, then save and re-register; a save
failure returns `false` but the defaults stay in memory. -/
def resetToDefaults (ext : String → Bool) (persistFails : Bool) (s : MainState) :
    MainState × Bool :=
  let s1 := { s with currentShortcuts := DEFAULT_SHORTCUTS }
  if persistFails then (s1, false)
  else (registerAllShortcuts ext s1, true)

/-- The binding-table invariant of spec section 3: the three accelerators are
pairwise distinct and none is protected. -/
def bindingInvariant (cfg : ShortcutConfig) : Bool :=
  cfg.screenshotChat != cfg.screenshotExplain
    && cfg.screenshotChat != cfg.textSelection
    && cfg.screenshotExplain != cfg.textSelection
    && !isProtectedShortcut cfg.screenshotChat
    && !isProtectedShortcut cfg.screenshotExplain
    && !isProtectedShortcut cfg.textSelection

/-- An environment in which no other process owns any accelerator. -/
def noExternalOwners : String → Bool := fun _ => false

/-- The state right after startup (`app.whenReady`, `src/app/main.ts`, lines
295-303) with the default bindings, in an environment with no external
owners: the three defaults are registered. -/
def startupState : MainState :=
  registerAllShortcuts noExternalOwners
    { currentShortcuts := DEFAULT_SHORTCUTS
      registeredShortcuts := []
      shortcutsDisabled := false }

/-- C5: for every protected accelerator and every action, updateBinding
returns the Protected error and leaves the whole registry state — in
particular the binding table — unchanged. -/
theorem C5_protected_rejected (ext : String → Bool) (persistFails : Bool)
    (s : MainState) (key : ShortcutKey) (a : String)
    (ha : a ∈ PROTECTED_SHORTCUTS) :
    updateBinding ext persistFails s key a = (s, UpdateResult.protectedErr) := by
  have hp : isProtectedShortcut a = true := by
    simpa [isProtectedShortcut, List.contains, List.elem_iff] using ha
  unfold updateBinding
  simp [hp]

/-- Witness for C5 at the concrete protected accelerator "CommandOrControl+C". -/
theorem C5_protected_rejected_witness :
    updateBinding noExternalOwners false startupState ShortcutKey.screenshotChat
      "CommandOrControl+C" = (startupState, UpdateResult.protectedErr) :=
  C5_protected_rejected noExternalOwners false startupState ShortcutKey.screenshotChat
    "CommandOrControl+C" (by decide)

/-- Writing back the accelerator an action already has restores the original
table. -/
theorem ShortcutConfig.set_get (cfg : ShortcutConfig) (key : ShortcutKey) :
    cfg.set key (cfg.get key) = cfg := by
  cases cfg; cases key <;> rfl

/-- The rollback of `settings:update-shortcut`: assigning `oldAccelerator`
over the freshly assigned accelerator restores the original table. -/
theorem ShortcutConfig.set_set_get (cfg : ShortcutConfig) (key : ShortcutKey) (a : String) :
    (cfg.set key a).set key (cfg.get key) = cfg := by
  cases cfg; cases key <;> rfl

/-- Reading back a freshly assigned binding. -/
theorem ShortcutConfig.get_set_same (cfg : ShortcutConfig) (key : ShortcutKey) (a : String) :
    (cfg.set key a).get key = a := by
  cases key <;> rfl

/-- Another action's current accelerator is flagged by the duplicate check. -/
theorem isDuplicate_of_other (cfg : ShortcutConfig) (x y : ShortcutKey) (hxy : x ≠ y) :
    isDuplicate cfg y (cfg.get x) = true := by
  cases x <;> cases y <;> simp_all [isDuplicate, ShortcutKey.all, ShortcutConfig.get]

/-- Under the binding invariant, an action's own accelerator is neither a
duplicate against the other actions nor protected. -/
theorem invariant_no_self_dup (cfg : ShortcutConfig) (key : ShortcutKey)
    (h : bindingInvariant cfg = true) :
    isDuplicate cfg key (cfg.get key) = false ∧ isProtectedShortcut (cfg.get key) = false := by
  simp only [bindingInvariant, Bool.and_eq_true, bne_iff_ne, Bool.not_eq_true'] at h
  obtain ⟨⟨⟨⟨⟨h12, h13⟩, h23⟩, p1⟩, p2⟩, p3⟩ := h
  cases key <;>
    simp [isDuplicate, ShortcutKey.all, ShortcutConfig.get, h12, h13, h23, p1, p2, p3,
      Ne.symm h12, Ne.symm h13, Ne.symm h23]

/-- Assigning an accelerator that passed the protected and duplicate checks
preserves the binding invariant. -/
theorem bindingInvariant_set (cfg : ShortcutConfig) (key : ShortcutKey) (a : String)
    (hinv : bindingInvariant cfg = true)
    (hp : isProtectedShortcut a = false)
    (hd : isDuplicate cfg key a = false) :
    bindingInvariant (cfg.set key a) = true := by
  simp only [bindingInvariant, Bool.and_eq_true, bne_iff_ne, Bool.not_eq_true'] at hinv
  obtain ⟨⟨⟨⟨⟨h12, h13⟩, h23⟩, p1⟩, p2⟩, p3⟩ := hinv
  cases key <;>
    simp_all [isDuplicate, ShortcutKey.all, ShortcutConfig.get, ShortcutConfig.set,
      bindingInvariant, Bool.and_eq_true, bne_iff_ne, Bool.not_eq_true', ne_comm]

/-- Re-registering the hotkey table never touches the binding table. -/
theorem registerAllShortcuts_currentShortcuts (ext : String → Bool) (s : MainState) :
    (registerAllShortcuts ext s).currentShortcuts = s.currentShortcuts := by
  unfold registerAllShortcuts
  by_cases h : s.shortcutsDisabled <;> simp [h]

/-- When `settings:update-shortcut` reports success, the binding table is the
old table with the targeted action reassigned. -/
theorem updateBinding_ok_currentShortcuts (ext : String → Bool) (pf : Bool) (s : MainState)
    (key : ShortcutKey) (a : String)
    (h : (updateBinding ext pf s key a).2 = UpdateResult.ok) :
    (updateBinding ext pf s key a).1.currentShortcuts = s.currentShortcuts.set key a := by
  by_cases h1 : isProtectedShortcut a
  · simp [updateBinding, h1] at h
  · by_cases h2 : isDuplicate s.currentShortcuts key a
    · simp [updateBinding, h1, h2] at h
    · by_cases h3 : (updateBinding ext pf s key a).2 = UpdateResult.ok
      · by_cases h4 : (osRegister ext s.registeredShortcuts a).2
        · by_cases h5 : pf
          · simp [updateBinding, h1, h2, h4, h5] at h
          · simp [updateBinding, h1, h2, h4, h5, registerAllShortcuts_currentShortcuts]
        · simp only [Bool.not_eq_true] at h4
          simp [updateBinding, h1, h2, h4] at h
      · exact absurd h h3

/-- A candidate accelerator equal to another action's current accelerator is
rejected as a duplicate, leaving the state untouched. -/
theorem updateBinding_duplicate_of_other (ext : String → Bool) (pf : Bool) (s : MainState)
    (x y : ShortcutKey) (hxy : x ≠ y)
    (hp : isProtectedShortcut (s.currentShortcuts.get x) = false) :
    updateBinding ext pf s y (s.currentShortcuts.get x) = (s, UpdateResult.duplicate) := by
  unfold updateBinding
  simp [hp, isDuplicate_of_other s.currentShortcuts x y hxy]

/-- C6: whenever a distinct action x currently holds accelerator k (and k is
not protected, which the spec's validation order checks first), updating any
other action y to k is rejected as Duplicate against the in-memory table and
the state is unchanged; moreover, in a sequence of two updates, the second is
checked against the in-memory result of the first: after a successful update
of x to a fresh accelerator a, an immediate update of y to a is rejected as
Duplicate. -/
theorem C6_duplicate_against_memory :
    (∀ (ext : String → Bool) (pf : Bool) (s : MainState) (x y : ShortcutKey),
       x ≠ y → isProtectedShortcut (s.currentShortcuts.get x) = false →
       updateBinding ext pf s y (s.currentShortcuts.get x) = (s, UpdateResult.duplicate))
  ∧ (∀ (ext : String → Bool) (pf pf2 : Bool) (s : MainState) (x y : ShortcutKey) (a : String),
       x ≠ y → (updateBinding ext pf s x a).2 = UpdateResult.ok →
       updateBinding ext pf2 (updateBinding ext pf s x a).1 y a
         = ((updateBinding ext pf s x a).1, UpdateResult.duplicate)) := by
  constructor
  · intro ext pf s x y hxy hp
    exact updateBinding_duplicate_of_other ext pf s x y hxy hp
  · intro ext pf pf2 s x y a hxy hok
    have hcur : (updateBinding ext pf s x a).1.currentShortcuts = s.currentShortcuts.set x a :=
      updateBinding_ok_currentShortcuts ext pf s x a hok
    have hget : (updateBinding ext pf s x a).1.currentShortcuts.get x = a := by
      rw [hcur, ShortcutConfig.get_set_same]
    have hp : isProtectedShortcut a = false := by
      by_cases h1 : isProtectedShortcut a
      · simp [updateBinding, h1] at hok
      · simpa using h1
    have := updateBinding_duplicate_of_other ext pf2 (updateBinding ext pf s x a).1 x y hxy
      (by rw [hget]; exact hp)
    rwa [hget] at this

/-- Witness for C6: with the default table, updating screenshotExplain to
screenshotChat's current accelerator is rejected as Duplicate; and after
successfully moving screenshotChat to Alt+F1, moving screenshotExplain to
Alt+F1 is rejected as Duplicate against the updated in-memory table. -/
theorem C6_duplicate_against_memory_witness :
    updateBinding noExternalOwners false startupState ShortcutKey.screenshotExplain
        (startupState.currentShortcuts.get ShortcutKey.screenshotChat)
        = (startupState, UpdateResult.duplicate)
  ∧ updateBinding noExternalOwners false
        (updateBinding noExternalOwners false startupState ShortcutKey.screenshotChat "Alt+F1").1
        ShortcutKey.screenshotExplain "Alt+F1"
      = ((updateBinding noExternalOwners false startupState ShortcutKey.screenshotChat "Alt+F1").1,
         UpdateResult.duplicate) :=
  ⟨C6_duplicate_against_memory.1 noExternalOwners false startupState
      ShortcutKey.screenshotChat ShortcutKey.screenshotExplain (by decide) (by decide),
   C6_duplicate_against_memory.2 noExternalOwners false false startupState
      ShortcutKey.screenshotChat ShortcutKey.screenshotExplain "Alt+F1" (by decide) (by decide)⟩

/-- C4: when every validation step passes but writing the updated bindings to
durable storage fails, updateBinding returns the PersistFailed error and the
in-memory binding table is rolled back, so the table after the failed call
equals the table before it. -/
theorem C4_persist_failure_rolls_back (ext : String → Bool) (s : MainState)
    (key : ShortcutKey) (a : String)
    (h1 : isProtectedShortcut a = false)
    (h2 : isDuplicate s.currentShortcuts key a = false)
    (h3 : s.registeredShortcuts.contains a = false)
    (h4 : ext a = false) :
    (updateBinding ext true s key a).2 = UpdateResult.persistFailed
      ∧ (updateBinding ext true s key a).1.currentShortcuts = s.currentShortcuts := by
  have hmem : a ∉ s.registeredShortcuts := by simpa using h3
  have htest : (osRegister ext s.registeredShortcuts a).2 = true := by
    simp [osRegister, hmem, h4]
  unfold updateBinding
  simp [h1, h2, htest, registerAllShortcuts_currentShortcuts, ShortcutConfig.set_set_get]

/-- Witness for C4: rebinding screenshotChat to Alt+F2 with a failing save
returns PersistFailed and leaves the default table in place. -/
theorem C4_persist_failure_rolls_back_witness :
    (updateBinding noExternalOwners true startupState ShortcutKey.screenshotChat "Alt+F2").2
        = UpdateResult.persistFailed
      ∧ (updateBinding noExternalOwners true startupState
          ShortcutKey.screenshotChat "Alt+F2").1.currentShortcuts
        = startupState.currentShortcuts :=
  C4_persist_failure_rolls_back noExternalOwners startupState ShortcutKey.screenshotChat
    "Alt+F2" (by decide) (by decide) (by decide) (by decide)

/-- C2 counterexample: in the startup state, where the process itself holds a
live OS registration for the default screenshotChat accelerator, re-assigning
screenshotChat its own current accelerator is rejected as OSRejected — the
throwaway availability test fails against the process's own registration —
rather than returning success as the claim states. -/
theorem C2_counterexample :
    (updateBinding noExternalOwners false startupState ShortcutKey.screenshotChat
        "CommandOrControl+Shift+X").2 = UpdateResult.osRejected
      ∧ startupState.currentShortcuts.get ShortcutKey.screenshotChat = "CommandOrControl+Shift+X"
      ∧ startupState.registeredShortcuts.contains "CommandOrControl+Shift+X" = true := by
  decide

/-- C2 (amended): re-assigning an action its own current accelerator is never
rejected as Duplicate, and when the process does not currently hold an OS
registration for that accelerator (as in the rebinding flow, where all
shortcuts are suspended first) and no other process owns it, the call
returns success and leaves the binding table unchanged. -/
theorem C2_self_update_noop (ext : String → Bool) (s : MainState) (key : ShortcutKey)
    (a : String)
    (hinv : bindingInvariant s.currentShortcuts = true)
    (ha : s.currentShortcuts.get key = a)
    (hheld : s.registeredShortcuts.contains a = false)
    (hext : ext a = false) :
    (updateBinding ext false s key a).2 = UpdateResult.ok
      ∧ (updateBinding ext false s key a).1.currentShortcuts = s.currentShortcuts := by
  obtain ⟨hd, hp⟩ := invariant_no_self_dup s.currentShortcuts key hinv
  rw [ha] at hd hp
  have hmem : a ∉ s.registeredShortcuts := by simpa using hheld
  have htest : (osRegister ext s.registeredShortcuts a).2 = true := by
    simp [osRegister, hmem, hext]
  unfold updateBinding
  simp [hp, hd, htest, registerAllShortcuts_currentShortcuts]
  rw [← ha, ShortcutConfig.set_get]

/-- Witness for C2 (amended): with the default table and no live
registrations (the suspended-shortcuts state), re-assigning screenshotChat
its own accelerator succeeds and keeps the table unchanged. -/
theorem C2_self_update_noop_witness :
    (updateBinding noExternalOwners false
        { currentShortcuts := DEFAULT_SHORTCUTS, registeredShortcuts := [],
          shortcutsDisabled := false }
        ShortcutKey.screenshotChat "CommandOrControl+Shift+X").2 = UpdateResult.ok
      ∧ (updateBinding noExternalOwners false
        { currentShortcuts := DEFAULT_SHORTCUTS, registeredShortcuts := [],
          shortcutsDisabled := false }
        ShortcutKey.screenshotChat "CommandOrControl+Shift+X").1.currentShortcuts
        = DEFAULT_SHORTCUTS :=
  C2_self_update_noop noExternalOwners
    { currentShortcuts := DEFAULT_SHORTCUTS, registeredShortcuts := [],
      shortcutsDisabled := false }
    ShortcutKey.screenshotChat "CommandOrControl+Shift+X"
    (by decide) (by decide) (by decide) (by decide)

/-- A persisted config in which all three bindings collide on the protected
copy accelerator; hand-editable on disk, and accepted by the startup
validation. -/
def badPersistedConfig : ShortcutConfig :=
  { screenshotChat := "CommandOrControl+C"
    screenshotExplain := "CommandOrControl+C"
    textSelection := "CommandOrControl+C" }

/-- C3 counterexample: the startup load accepts a persisted config whose
three bindings are all the protected copy accelerator — the validation only
checks that the three fields are non-empty — so the binding table produced at
startup from a persisted config file need not satisfy the
distinct-and-unprotected invariant. -/
theorem C3_counterexample :
    loadShortcuts (some badPersistedConfig) = badPersistedConfig
      ∧ bindingInvariant badPersistedConfig = false := by
  decide

/-- C3 (amended): the invariant holds for the hard-coded defaults, holds for
the startup table whenever the persisted file itself satisfies it (in
particular for any file written by the code's own save path), and is
preserved by every updateBinding and established by every resetToDefaults;
only the startup path for a hand-edited persisted file can violate it. -/
theorem C3_invariant :
    bindingInvariant DEFAULT_SHORTCUTS = true
  ∧ (∀ fileContents : Option ShortcutConfig,
       (∀ cfg, fileContents = some cfg → bindingInvariant cfg = true) →
       bindingInvariant (loadShortcuts fileContents) = true)
  ∧ (∀ (ext : String → Bool) (pf : Bool) (s : MainState) (key : ShortcutKey) (a : String),
       bindingInvariant s.currentShortcuts = true →
       bindingInvariant (updateBinding ext pf s key a).1.currentShortcuts = true)
  ∧ (∀ (ext : String → Bool) (pf : Bool) (s : MainState),
       bindingInvariant (resetToDefaults ext pf s).1.currentShortcuts = true) := by
  refine ⟨by decide, ?_, ?_, ?_⟩
  · intro fileContents hfile
    match fileContents with
    | none => decide
    | some cfg =>
        unfold loadShortcuts
        by_cases hv : cfg.screenshotChat != "" && cfg.screenshotExplain != ""
            && cfg.textSelection != ""
        · simpa [hv] using hfile cfg rfl
        · simp only [Bool.not_eq_true] at hv
          simp [hv]
          decide
  · intro ext pf s key a hinv
    by_cases h1 : isProtectedShortcut a
    · simpa [updateBinding, h1] using hinv
    · by_cases h2 : isDuplicate s.currentShortcuts key a
      · simpa [updateBinding, h1, h2] using hinv
      · by_cases h4 : (osRegister ext s.registeredShortcuts a).2
        · by_cases h5 : pf
          · simpa [updateBinding, h1, h2, h4, h5, registerAllShortcuts_currentShortcuts,
              ShortcutConfig.set_set_get] using hinv
          · simp [updateBinding, h1, h2, h4, h5, registerAllShortcuts_currentShortcuts]
            exact bindingInvariant_set s.currentShortcuts key a hinv
              (by simpa using h1) (by simpa using h2)
        · simp only [Bool.not_eq_true] at h4
          simpa [updateBinding, h1, h2, h4] using hinv
  · intro ext pf s
    unfold resetToDefaults
    by_cases hpf : pf
    · simp [hpf]
      decide
    · simp [hpf, registerAllShortcuts_currentShortcuts]
      decide

/-- Witness for C3 (amended): the invariant holds after loading a persisted
file carrying the defaults and after an updateBinding from the startup
state. -/
theorem C3_invariant_witness :
    bindingInvariant (loadShortcuts (some DEFAULT_SHORTCUTS)) = true
      ∧ bindingInvariant
          (updateBinding noExternalOwners false startupState
            ShortcutKey.screenshotChat "Alt+F3").1.currentShortcuts = true :=
  ⟨C3_invariant.2.1 (some DEFAULT_SHORTCUTS) (fun cfg h => by
      cases h
      decide),
   C3_invariant.2.2.1 noExternalOwners false startupState ShortcutKey.screenshotChat "Alt+F3"
      (by decide)⟩

/-- Outcomes of the two copy-simulation strategies of `triggerCopyCommand`
(the copy-command utility module, `sendCmdCWithKeyCode` and
`sendCmdCWithKeystroke`): whether each external `osascript` invocation
errors. -/
structure CopyEnv where
  keyCodeThrows : Bool
  keystrokeThrows : Bool
deriving DecidableEq

/-- `triggerCopyCommand` (copy-command utility module): the key-code strategy
is tried first and, if it throws, the keystroke strategy; the last error is
thrown only when both fail, so the call as a whole throws exactly when both
strategies throw. -/
def triggerCopyThrows (e : CopyEnv) : Bool := e.keyCodeThrows && e.keystrokeThrows

/-- `maxAttempts` of `captureSelectedText` (`src/app/main.ts`, line 161). -/
def maxAttempts : Nat := 10

/-- The change test of `captureSelectedText` (`src/app/main.ts`, lines 165
and 175-176): when the original clipboard text was empty, any non-empty
observation counts as changed; otherwise any observation different from the
original counts as changed. -/
def didChange (original captured : String) : Bool :=
  if original == "" then captured != "" else captured != original

/-- The polling loop of `captureSelectedText` (`src/app/main.ts`, lines
164-173): starting from the read taken right after the copy command, check
the current observation; if unchanged, wait 80 ms and take the next read,
for at most `maxAttempts` iterations. `obs i` is the clipboard text returned
by the i-th `clipboard.readText()` after the copy command; `fuel` counts the
remaining loop iterations and `attempt` the index of the current
observation. -/
def pollFrom (original : String) (obs : Nat → String) : Nat → Nat → String → String
  | 0, _, captured => captured
  | fuel+1, attempt, captured =>
      if didChange original captured then captured
      else pollFrom original obs fuel (attempt + 1) (obs (attempt + 1))

/-- The external world seen by one `captureSelectedText` call: the outcome of
the copy simulation, and the sequence of clipboard contents observed by the
successive reads. -/
structure TextCaptureEnv where
  copy : CopyEnv
  obs : Nat → String

/-- `captureSelectedText` (`src/app/main.ts`, lines 155-189). Returns the
captured text (`none` both for the catch path and for the no-change /
empty-capture paths, mirroring the nulls of the source) paired with the
clipboard's text content after the call; the `finally` block writes
`originalText` back on every exit path, so the second component is always
the original content. -/
def captureSelectedText (clipboardBefore : String) (env : TextCaptureEnv) :
    Option String × String :=
  let originalText := clipboardBefore
  if triggerCopyThrows env.copy then (none, originalText)
  else
    let capturedText := pollFrom originalText env.obs maxAttempts 0 (env.obs 0)
    if !didChange originalText capturedText then (none, originalText)
    else (if capturedText == "" then none else some capturedText, originalText)

/-- When no observation within the loop's reach changes, the loop runs out of
fuel and ends on the last observation. -/
theorem pollFrom_no_change (original : String) (obs : Nat → String) :
    ∀ (fuel attempt : Nat),
      (∀ i, attempt ≤ i → i ≤ attempt + fuel → didChange original (obs i) = false) →
      pollFrom original obs fuel attempt (obs attempt) = obs (attempt + fuel)
  | 0, attempt, h => by simp [pollFrom]
  | fuel+1, attempt, h => by
      have h0 : didChange original (obs attempt) = false := h attempt le_rfl (by omega)
      have ih := pollFrom_no_change original obs fuel (attempt + 1)
        (fun i hi1 hi2 => h i (by omega) (by omega))
      rw [pollFrom, h0, ih]
      norm_num
      congr 1
      omega

/-- When the first changed observation within the loop's reach is at index j,
the loop stops there and returns it. -/
theorem pollFrom_change (original : String) (obs : Nat → String) :
    ∀ (fuel attempt j : Nat), attempt ≤ j → j ≤ attempt + fuel →
      didChange original (obs j) = true →
      (∀ i, attempt ≤ i → i < j → didChange original (obs i) = false) →
      pollFrom original obs fuel attempt (obs attempt) = obs j
  | 0, attempt, j, hj1, hj2, hcj, hbefore => by
      have hja : j = attempt := by omega
      subst hja
      simp [pollFrom]
  | fuel+1, attempt, j, hj1, hj2, hcj, hbefore => by
      by_cases h0 : attempt = j
      · subst h0
        simp [pollFrom, hcj]
      · have hlt : attempt < j := by omega
        have hc0 : didChange original (obs attempt) = false := hbefore attempt le_rfl hlt
        have ih := pollFrom_change original obs fuel (attempt + 1) j (by omega) (by omega) hcj
          (fun i hi1 hi2 => hbefore i (by omega) hi2)
        rw [pollFrom, hc0, ih]
        simp

/-- A text capture in which no observation changes returns null. -/
theorem captureSelectedText_no_change (c : String) (env : TextCaptureEnv)
    (hcopy : triggerCopyThrows env.copy = false)
    (h : ∀ i, i ≤ maxAttempts → didChange c (env.obs i) = false) :
    (captureSelectedText c env).1 = none := by
  unfold captureSelectedText
  have hp := pollFrom_no_change c env.obs maxAttempts 0 (fun i hi1 hi2 => h i (by omega))
  simp only [Nat.zero_add] at hp
  simp [hcopy, hp, h maxAttempts le_rfl]

/-- A text capture whose first changed observation is at index j within the
polling budget returns that observation, or null when it is empty. -/
theorem captureSelectedText_change (c : String) (env : TextCaptureEnv) (j : Nat)
    (hcopy : triggerCopyThrows env.copy = false)
    (hj : j ≤ maxAttempts) (hcj : didChange c (env.obs j) = true)
    (hbefore : ∀ i, i < j → didChange c (env.obs i) = false) :
    (captureSelectedText c env).1 = (if env.obs j == "" then none else some (env.obs j)) := by
  unfold captureSelectedText
  have hp := pollFrom_change c env.obs maxAttempts 0 j (Nat.zero_le j) (by omega) hcj
    (fun i hi1 hi2 => hbefore i hi2)
  simp [hcopy, hp, hcj]

/-- C1: for every invocation of text-selection capture, whatever the copy
simulation and the observed clipboard sequence do — return of captured text,
return of null, or a thrown copy-simulation error — the clipboard's text
content after the call equals its content immediately before the call. -/
theorem C1_clipboard_restored (clipboardBefore : String) (env : TextCaptureEnv) :
    (captureSelectedText clipboardBefore env).2 = clipboardBefore := by
  unfold captureSelectedText
  by_cases h : triggerCopyThrows env.copy
  · simp [h]
  · simp [h]
    split <;> rfl

/-- C7: change detection of text-selection capture. First: if no observation
within the bounded polling budget counts as changed, the call returns null
(Failed). Second: if the original content was empty, the first non-empty
observation within the budget is returned as the captured text. Third, in
general: the first changed observation within the budget determines the
result, which is that observation (or null when it is the empty string). -/
theorem C7_change_detection :
    (∀ (c : String) (env : TextCaptureEnv),
       triggerCopyThrows env.copy = false →
       (∀ i, i ≤ maxAttempts → didChange c (env.obs i) = false) →
       (captureSelectedText c env).1 = none)
  ∧ (∀ (env : TextCaptureEnv) (j : Nat),
       triggerCopyThrows env.copy = false →
       j ≤ maxAttempts → env.obs j ≠ "" →
       (∀ i, i < j → env.obs i = "") →
       (captureSelectedText "" env).1 = some (env.obs j))
  ∧ (∀ (c : String) (env : TextCaptureEnv) (j : Nat),
       triggerCopyThrows env.copy = false →
       j ≤ maxAttempts → didChange c (env.obs j) = true →
       (∀ i, i < j → didChange c (env.obs i) = false) →
       (captureSelectedText c env).1
         = (if env.obs j == "" then none else some (env.obs j))) := by
  refine ⟨captureSelectedText_no_change, ?_, captureSelectedText_change⟩
  intro env j hcopy hj hne hzero
  have hcj : didChange "" (env.obs j) = true := by simp [didChange, hne]
  have hb : ∀ i, i < j → didChange "" (env.obs i) = false := by
    intro i hi
    simp [didChange, hzero i hi]
  rw [captureSelectedText_change "" env j hcopy hj hcj hb]
  simp [hne]

/-- Witness for C7: an external copy that never changes the clipboard yields
null; from an empty clipboard, an external copy producing "hello" yields
"hello"; from "orig", an observation "new" yields "new". -/
theorem C7_change_detection_witness :
    (captureSelectedText "orig" ⟨⟨false, false⟩, fun _ => "orig"⟩).1 = none
  ∧ (captureSelectedText "" ⟨⟨false, false⟩, fun _ => "hello"⟩).1 = some "hello"
  ∧ (captureSelectedText "orig" ⟨⟨false, false⟩, fun _ => "new"⟩).1
      = (if ("new" : String) == "" then none else some "new") :=
  ⟨C7_change_detection.1 "orig" ⟨⟨false, false⟩, fun _ => "orig"⟩ rfl
      (fun i _ => by simp [didChange]),
   C7_change_detection.2.1 ⟨⟨false, false⟩, fun _ => "hello"⟩ 0 rfl (by decide)
      (by decide) (fun i hi => absurd hi (by omega)),
   C7_change_detection.2.2 "orig" ⟨⟨false, false⟩, fun _ => "new"⟩ 0 rfl (by decide)
      (by simp [didChange]) (fun i hi => absurd hi (by omega))⟩

/-- Model of JavaScript's `String.prototype.trim` as used by the trigger
handler's guard (`src/app/main.ts`, line 279): drop whitespace characters
from both ends. -/
def jsTrim (s : String) : String :=
  String.mk (((s.data.dropWhile Char.isWhitespace).reverse.dropWhile Char.isWhitespace).reverse)

/-- A string whose trim is non-empty contains a non-whitespace character. -/
theorem exists_nonws_of_jsTrim_ne (s : String) (h : jsTrim s ≠ "") :
    ∃ ch ∈ s.data, ch.isWhitespace = false := by
  by_contra hall
  push_neg at hall
  apply h
  unfold jsTrim
  have h1 : s.data.dropWhile Char.isWhitespace = [] := by
    rw [List.dropWhile_eq_nil_iff]
    intro x hx
    have := hall x hx
    simpa using this
  simp [h1]

/-- The text-selection trigger handler (`src/app/main.ts`, lines 276-289):
no-op while shortcuts are disabled; given the capture result, return early —
showing no overlay and sending nothing — when it is null, empty, or
whitespace-only; otherwise surface the text. The returned option is the
artifact sent to the overlay (`none` when the handler returned early). -/
def textSelectionHandler (shortcutsDisabled : Bool) (selectedText : Option String) :
    Option String :=
  if shortcutsDisabled then none
  else
    match selectedText with
    | none => none
    | some s => if s == "" || jsTrim s == "" then none else some s

/-- A text capture never returns the empty string as its captured value. -/
theorem captureSelectedText_ne_empty (c : String) (env : TextCaptureEnv) (t : String)
    (h : (captureSelectedText c env).1 = some t) : t ≠ "" := by
  unfold captureSelectedText at h
  by_cases hc : triggerCopyThrows env.copy
  · simp [hc] at h
  · by_cases hd : didChange c (pollFrom c env.obs maxAttempts 0 (env.obs 0))
    · by_cases he : pollFrom c env.obs maxAttempts 0 (env.obs 0) = ""
      · simp [hc, hd, he] at h
      · simp [hc, hd, he] at h
        rwa [h] at he
    · simp [hc, hd] at h

/-- Anything the trigger handler surfaces has a non-empty trim, hence a
non-whitespace character. -/
theorem textSelectionHandler_nonws (d : Bool) (r : Option String) (t : String)
    (h : textSelectionHandler d r = some t) :
    jsTrim t ≠ "" ∧ ∃ ch ∈ t.data, ch.isWhitespace = false := by
  unfold textSelectionHandler at h
  by_cases hd : d
  · simp [hd] at h
  · simp [hd] at h
    match r, h with
    | some s, h =>
        simp only [Option.some.injEq] at h
        by_cases hb : s = "" ∨ jsTrim s = ""
        · simp [hb] at h
        · push_neg at hb
          simp [hb.1, hb.2] at h
          subst h
          exact ⟨hb.2, exists_nonws_of_jsTrim_ne s hb.2⟩

/-- C10: the text path never surfaces empty or whitespace-only content. If a
text capture returns a captured value it is not the empty string; and every
artifact the trigger handler delivers has a non-empty trim and contains at
least one non-whitespace character. -/
theorem C10_no_blank_text :
    (∀ (c : String) (env : TextCaptureEnv) (t : String),
       (captureSelectedText c env).1 = some t → t ≠ "")
  ∧ (∀ (disabled : Bool) (c : String) (env : TextCaptureEnv) (t : String),
       textSelectionHandler disabled (captureSelectedText c env).1 = some t →
       jsTrim t ≠ "" ∧ ∃ ch ∈ t.data, ch.isWhitespace = false) :=
  ⟨captureSelectedText_ne_empty,
   fun disabled _ _ t h => textSelectionHandler_nonws disabled _ t h⟩

/-- Witness for C10: a capture observing "hello" surfaces "hello", which is
non-empty and contains a non-whitespace character. -/
theorem C10_no_blank_text_witness :
    ("hello" : String) ≠ ""
  ∧ (jsTrim "hello" ≠ "" ∧ ∃ ch ∈ ("hello" : String).data, ch.isWhitespace = false) :=
  ⟨C10_no_blank_text.1 "" ⟨⟨false, false⟩, fun _ => "hello"⟩ "hello" (by decide),
   C10_no_blank_text.2 false "" ⟨⟨false, false⟩, fun _ => "hello"⟩ "hello" (by decide)⟩

/-- Results of `captureRegion` (`src/app/main.ts`, lines 132-152). The three
code paths are distinguished: the catch around the `screencapture` invocation
(cancellation, logged as a warning only), the successful read of the output
file (carrying the file's contents; the base64 data-URL encoding of the
bytes is abstracted to the carried payload), and the failed read after a
reported success. In the source both non-image paths return null; the
constructors record which path produced the null. -/
inductive RegionResult
  | image (payload : String)
  | cancelled
  | failed
deriving DecidableEq

/-- The external world seen by one `captureRegion` call: whether the
`screencapture` utility exits with an error status (including the user
pressing Escape), the readable contents of the temp file (none = unreadable
or missing), and whether the best-effort `fs.unlink` of the temp file
fails. -/
structure RegionEnv where
  utilFails : Bool
  fileContents : Option String
  unlinkFails : Bool
deriving DecidableEq

/-- Outcome of `captureRegion`: the result, and whether deletion of the temp
file was attempted (`fs.unlink` is only reached on the successful-read
path). -/
structure RegionOutcome where
  result : RegionResult
  deletionAttempted : Bool
deriving DecidableEq

/-- `captureRegion` (`src/app/main.ts`, lines 132-152). The unlink outcome is
swallowed by `.catch(() => undefined)` and never influences the result. -/
def captureRegion (env : RegionEnv) : RegionOutcome :=
  if env.utilFails then { result := RegionResult.cancelled, deletionAttempted := false }
  else
    match env.fileContents with
    | some buf => { result := RegionResult.image buf, deletionAttempted := true }
    | none => { result := RegionResult.failed, deletionAttempted := false }

/-- C8: region capture distinguishes three outcomes — utility error (or user
escape) gives Cancelled; reported success with a readable file gives Image
carrying the file contents with deletion of the temp file attempted; reported
success with an unreadable file gives Failed — and a failing deletion never
changes the outcome (non-fatal). -/
theorem C8_region_outcomes :
    (∀ env : RegionEnv, env.utilFails = true →
       (captureRegion env).result = RegionResult.cancelled)
  ∧ (∀ (env : RegionEnv) (buf : String), env.utilFails = false → env.fileContents = some buf →
       (captureRegion env).result = RegionResult.image buf
         ∧ (captureRegion env).deletionAttempted = true)
  ∧ (∀ env : RegionEnv, env.utilFails = false → env.fileContents = none →
       (captureRegion env).result = RegionResult.failed)
  ∧ (∀ env : RegionEnv,
       captureRegion { env with unlinkFails := true }
         = captureRegion { env with unlinkFails := false }) := by
  refine ⟨?_, ?_, ?_, ?_⟩
  · intro env h
    simp [captureRegion, h]
  · intro env buf h1 h2
    simp [captureRegion, h1, h2]
  · intro env h1 h2
    simp [captureRegion, h1, h2]
  · intro env
    rfl

/-- Witness for C8 at concrete environments for each of the three paths. -/
theorem C8_region_outcomes_witness :
    (captureRegion ⟨true, none, false⟩).result = RegionResult.cancelled
  ∧ ((captureRegion ⟨false, some "png-bytes", true⟩).result = RegionResult.image "png-bytes"
      ∧ (captureRegion ⟨false, some "png-bytes", true⟩).deletionAttempted = true)
  ∧ (captureRegion ⟨false, none, false⟩).result = RegionResult.failed :=
  ⟨C8_region_outcomes.1 ⟨true, none, false⟩ rfl,
   C8_region_outcomes.2.1 ⟨false, some "png-bytes", true⟩ "png-bytes" rfl rfl,
   C8_region_outcomes.2.2.1 ⟨false, none, false⟩ rfl rfl⟩

/-- The overlay-and-escape state visible to the escape-key discipline of
`src/app/main.ts`: whether the overlay window object exists (`overlay` is
non-null and not destroyed), whether it is visible, and the `escapeRegistered`
flag, which the code keeps in lock-step with the process's Escape entry in
the OS hotkey table. -/
structure OverlayState where
  overlayExists : Bool
  overlayVisible : Bool
  escapeRegistered : Bool
deriving DecidableEq, Fintype

/-- `ensureEscapeShortcut` (`src/app/main.ts`, lines 76-87): a no-op when
already registered; otherwise attempt the OS registration (`registerOk` is
its outcome) and record it only on success. -/
def ensureEscapeShortcut (registerOk : Bool) (s : OverlayState) : OverlayState :=
  if s.escapeRegistered then s
  else if registerOk then { s with escapeRegistered := true }
  else s

/-- `releaseEscapeShortcut` (`src/app/main.ts`, lines 89-93): a no-op when
not registered; otherwise unregister and clear the flag. -/
def releaseEscapeShortcut (s : OverlayState) : OverlayState :=
  if s.escapeRegistered then { s with escapeRegistered := false } else s

/-- `overlay.hide()` together with the window's `hide` event handler
(`src/app/main.ts`, lines 126-129): the window becomes invisible and the
handler releases the escape shortcut. -/
def hideOverlayWindow (s : OverlayState) : OverlayState :=
  if s.overlayExists then releaseEscapeShortcut { s with overlayVisible := false } else s

/-- The events that drive the overlay/escape discipline: a trigger showing
the overlay near the cursor (`showOverlayNearCursor`, lines 191-216, which
lazily creates the window, shows it and ensures the escape shortcut, with
`escapeRegisterOk` the OS registration outcome), the renderer's
`overlay-hide` request (lines 313-316), a press of the registered Escape key
(its handler, lines 78-81), and the window's `closed` event (lines
121-124). -/
inductive OverlayEvent
  | showNearCursor (escapeRegisterOk : Bool)
  | hideRequest
  | escapePress
  | windowClosed

/-- One step of the overlay/escape state machine, mirroring the handlers of
`src/app/main.ts`: `showNearCursor` creates the window if absent, shows it
and calls `ensureEscapeShortcut`; `hideRequest` releases escape then hides
the window (whose `hide` handler releases again, a no-op); `escapePress`
fires only while registered and, after its guard on an existing visible
overlay, hides the window; `windowClosed` releases escape and nulls the
window handle. -/
def overlayStep : OverlayEvent → OverlayState → OverlayState
  | OverlayEvent.showNearCursor ok, s =>
      let s1 := if s.overlayExists then s
                else { s with overlayExists := true, overlayVisible := false }
      ensureEscapeShortcut ok { s1 with overlayVisible := true }
  | OverlayEvent.hideRequest, s => hideOverlayWindow (releaseEscapeShortcut s)
  | OverlayEvent.escapePress, s =>
      if s.escapeRegistered && s.overlayExists && s.overlayVisible then hideOverlayWindow s
      else s
  | OverlayEvent.windowClosed, s =>
      if s.overlayExists then
        { releaseEscapeShortcut s with overlayExists := false, overlayVisible := false }
      else s

/-- The state after `app.whenReady` (`src/app/main.ts`, lines 295-303):
`createOverlay` has built the window hidden, and escape is not registered. -/
def overlayInitState : OverlayState :=
  { overlayExists := true, overlayVisible := false, escapeRegistered := false }

/-- States of the overlay/escape machine reachable from startup. -/
inductive OverlayReachable : OverlayState → Prop
  | init : OverlayReachable overlayInitState
  | step (e : OverlayEvent) (s : OverlayState) :
      OverlayReachable s → OverlayReachable (overlayStep e s)

/-- Every step preserves the escape-only-while-visible property. -/
theorem overlayStep_escape_sound : ∀ (e : OverlayEvent) (s : OverlayState),
    (s.escapeRegistered = true → s.overlayExists = true ∧ s.overlayVisible = true) →
    ((overlayStep e s).escapeRegistered = true →
      (overlayStep e s).overlayExists = true ∧ (overlayStep e s).overlayVisible = true) := by
  intro e
  cases e with
  | showNearCursor ok => revert ok; decide
  | hideRequest => decide
  | escapePress => decide
  | windowClosed => decide

/-- In every reachable state, escape is registered only while the overlay
exists and is visible. -/
theorem escape_invariant (s : OverlayState) (hs : OverlayReachable s) :
    s.escapeRegistered = true → s.overlayExists = true ∧ s.overlayVisible = true := by
  induction hs with
  | init => decide
  | step e s' hs' ih => exact overlayStep_escape_sound e s' ih

/-- The hide request always leaves escape deregistered. -/
theorem hideRequest_deregisters : ∀ s : OverlayState,
    (overlayStep OverlayEvent.hideRequest s).escapeRegistered = false := by decide

/-- An escape press leaves escape deregistered in any state satisfying the
invariant. -/
theorem escapePress_deregisters : ∀ s : OverlayState,
    (s.escapeRegistered = true → s.overlayExists = true ∧ s.overlayVisible = true) →
    (overlayStep OverlayEvent.escapePress s).escapeRegistered = false := by decide

/-- A window close leaves escape deregistered in any state satisfying the
invariant. -/
theorem windowClosed_deregisters : ∀ s : OverlayState,
    (s.escapeRegistered = true → s.overlayExists = true ∧ s.overlayVisible = true) →
    (overlayStep OverlayEvent.windowClosed s).escapeRegistered = false := by decide

/-- C9: in every reachable state the Escape accelerator is registered only if
the overlay window exists and is visible; every transition out of Visible —
hide request, escape press, window close — leaves Escape deregistered; and
the bind/unbind operations are guarded so that binding when already bound and
unbinding when not bound are no-ops. -/
theorem C9_escape_only_while_visible :
    (∀ s : OverlayState, OverlayReachable s → s.escapeRegistered = true →
       s.overlayExists = true ∧ s.overlayVisible = true)
  ∧ (∀ s : OverlayState, OverlayReachable s →
       (overlayStep OverlayEvent.hideRequest s).escapeRegistered = false
         ∧ (overlayStep OverlayEvent.escapePress s).escapeRegistered = false
         ∧ (overlayStep OverlayEvent.windowClosed s).escapeRegistered = false)
  ∧ (∀ (ok : Bool) (s : OverlayState), s.escapeRegistered = true →
       ensureEscapeShortcut ok s = s)
  ∧ (∀ s : OverlayState, s.escapeRegistered = false → releaseEscapeShortcut s = s) := by
  refine ⟨escape_invariant, ?_, by decide, by decide⟩
  intro s hs
  exact ⟨hideRequest_deregisters s,
    escapePress_deregisters s (escape_invariant s hs),
    windowClosed_deregisters s (escape_invariant s hs)⟩

/-- Witness for C9 at the concrete reachable state right after a successful
show: the invariant yields an existing visible window there, hiding from it
deregisters escape, the bind guard is a no-op on it, and the unbind guard is
a no-op on the startup state. -/
theorem C9_escape_only_while_visible_witness :
    ((overlayStep (OverlayEvent.showNearCursor true) overlayInitState).overlayExists = true
      ∧ (overlayStep (OverlayEvent.showNearCursor true) overlayInitState).overlayVisible = true)
  ∧ (overlayStep OverlayEvent.hideRequest
        (overlayStep (OverlayEvent.showNearCursor true) overlayInitState)).escapeRegistered
      = false
  ∧ ensureEscapeShortcut false (overlayStep (OverlayEvent.showNearCursor true) overlayInitState)
      = overlayStep (OverlayEvent.showNearCursor true) overlayInitState
  ∧ releaseEscapeShortcut overlayInitState = overlayInitState :=
  ⟨C9_escape_only_while_visible.1 (overlayStep (OverlayEvent.showNearCursor true) overlayInitState)
      (OverlayReachable.step (OverlayEvent.showNearCursor true) overlayInitState
        OverlayReachable.init) (by decide),
   (C9_escape_only_while_visible.2.1 (overlayStep (OverlayEvent.showNearCursor true) overlayInitState)
      (OverlayReachable.step (OverlayEvent.showNearCursor true) overlayInitState
        OverlayReachable.init)).1,
   C9_escape_only_while_visible.2.2.1 false
      (overlayStep (OverlayEvent.showNearCursor true) overlayInitState) (by decide),
   C9_escape_only_while_visible.2.2.2 overlayInitState (by decide)⟩
